import Mathlib

/-!
A shallow embedding, in Lean 4, of the Streamlit application `src/app.py`
(a Python-documentation generator).  Parsed JSON values are modelled by the
inductive type `Json` (Python `json.loads` output: `None`, booleans, numbers,
strings, lists, dicts).  Python `dict.get`, subscription `d[k]`, iteration,
`str(...)` and the docx blocks emitted by `build_docx` are modelled
explicitly; Python exceptions (KeyError, TypeError, AttributeError) are the
`Except` error channel.  The module-level Streamlit generate/clear/display
handlers are modelled as pure state-transition functions over the session
state; the remote OpenAI call and `json.loads` appear as explicit outcome
data and an abstract parse function, since they are third-party collaborators
of the repository.
-/

/-- A parsed JSON value as returned by Python `json.loads`.  Python `None`
and JSON `null` are the same object, modelled by `Json.null`. -/
inductive Json where
  | null : Json
  | bool : Bool → Json
  | num : Int → Json
  | str : String → Json
  | arr : List Json → Json
  | obj : List (String × Json) → Json
deriving Repr

/-- Python exceptions that the rendering code in `build_docx` can raise. -/
inductive PyErr where
  | keyError : String → PyErr
  | typeError : String → PyErr
  | attributeError : String → PyErr
deriving Repr, DecidableEq

/-- Python single quote character (used by `repr` of strings). -/
def squote : String := String.singleton (Char.ofNat 39)

/-- Helper: comma-separated join. -/
def joinComma : List String → String
  | [] => ""
  | [s] => s
  | s :: rest => s ++ ", " ++ joinComma rest

mutual

/-- Python `repr` on parsed JSON values. -/
def pyRepr : Json → String
  | .null => "None"
  | .bool true => "True"
  | .bool false => "False"
  | .num n => toString n
  | .str s => squote ++ s ++ squote
  | .arr xs => "[" ++ joinComma (pyReprList xs) ++ "]"
  | .obj kvs => "\x7b" ++ joinComma (pyReprPairs kvs) ++ "\x7d"

/-- `repr` of each element of a Python list. -/
def pyReprList : List Json → List String
  | [] => []
  | x :: xs => pyRepr x :: pyReprList xs

/-- `repr` of each `key: value` entry of a Python dict. -/
def pyReprPairs : List (String × Json) → List String
  | [] => []
  | (k, v) :: kvs => (squote ++ k ++ squote ++ ": " ++ pyRepr v) :: pyReprPairs kvs

end

/-- Python `str(...)` on parsed JSON values (as used inside f-strings). -/
def pyStr : Json → String
  | .str s => s
  | v => pyRepr v

/-- Python `d.get(k, default)`: `AttributeError` when `d` is not a dict
(only dicts among parsed JSON values have `.get`). -/
def pyGet (v : Json) (k : String) (dflt : Json) : Except PyErr Json :=
  match v with
  | .obj kvs =>
    match kvs.lookup k with
    | some x => .ok x
    | none => .ok dflt
  | _ => .error (.attributeError "get")

/-- Python subscription `v[k]` with a string key: `KeyError` for a dict
missing the key, `TypeError` otherwise. -/
def pyGetItem (v : Json) (k : String) : Except PyErr Json :=
  match v with
  | .obj kvs =>
    match kvs.lookup k with
    | some x => .ok x
    | none => .error (.keyError k)
  | _ => .error (.typeError "not subscriptable by str")

/-- Python iteration `for x in v`: lists yield elements, strings yield
one-character strings, dicts yield their keys, the rest raise `TypeError`. -/
def pyIter (v : Json) : Except PyErr (List Json) :=
  match v with
  | .arr xs => .ok xs
  | .str s => .ok (s.toList.map (fun c => .str (String.singleton c)))
  | .obj kvs => .ok (kvs.map (fun kv => .str kv.1))
  | _ => .error (.typeError "not iterable")

/-- Coercion of a value into text where python-docx requires `str`
(paragraph text, cell text): `TypeError` otherwise. -/
def asStr (v : Json) : Except PyErr String :=
  match v with
  | .str s => .ok s
  | _ => .error (.typeError "text must be str")

/-- Effectful map, evaluating left to right and stopping at the first
raised exception, as a Python `for` loop does. -/
def exMap (f : Json → Except PyErr α) : List Json → Except PyErr (List α)
  | [] => .ok []
  | x :: xs => do
    let y ← f x
    let ys ← exMap f xs
    pure (y :: ys)

/-- One block of the generated docx document (title, paragraph, bolded
heading paragraph with a level, or a table given by header row and body
rows). -/
inductive Block where
  | title : String → Block
  | para : String → Block
  | heading : Nat → String → Block
  | table : List String → List (List String) → Block
deriving Repr, DecidableEq

/-- The bullet marker the source prefixes to list entries
(`src/app.py` lines 125 and 130). -/
def bulletStr : String := "‚Ä¢ "

/-- The fixed header row of every metadata table (`src/app.py`
lines 138-143). -/
def sixHeader : List String :=
  ["Column Name", "Data Type", "Description", "Sample Values",
   "Source Table", "Source Column"]

/-- One bulleted line of section 4 (`src/app.py` line 130):
`t['tableName']` and `t['description']` are subscriptions that raise
`KeyError` when missing. -/
def dbxBullet (t : Json) : Except PyErr Block := do
  let n ← pyGetItem t "tableName"
  let d ← pyGetItem t "description"
  pure (.para (bulletStr ++ pyStr n ++ ": " ++ pyStr d))

/-- One body row of a metadata table (`src/app.py` lines 144-151): each of
the six fields is a subscription (KeyError when missing) whose value is
assigned to a cell's `.text` (TypeError when not a string). -/
def colRowOf (col : Json) : Except PyErr (List String) := do
  let v0 ← pyGetItem col "columnName"
  let s0 ← asStr v0
  let v1 ← pyGetItem col "dataType"
  let s1 ← asStr v1
  let v2 ← pyGetItem col "description"
  let s2 ← asStr v2
  let v3 ← pyGetItem col "sampleValues"
  let s3 ← asStr v3
  let v4 ← pyGetItem col "sourceTable"
  let s4 ← asStr v4
  let v5 ← pyGetItem col "sourceColumn"
  let s5 ← asStr v5
  pure [s0, s1, s2, s3, s4, s5]

/-- The blocks emitted for one entry of `tableMetadata` (`src/app.py`
lines 134-152): a level-2 heading `Table: <name>` (subscription on
`tableName`), a table whose header is `sixHeader` and whose body has one
row per element of `columns` (defaulted to the empty list by `.get`),
then an empty paragraph. -/
def tableSection (tbl : Json) : Except PyErr (List Block) := do
  let n ← pyGetItem tbl "tableName"
  let cols ← pyGet tbl "columns" (.arr [])
  let colItems ← pyIter cols
  let rows ← exMap colRowOf colItems
  pure [.heading 2 ("Table: " ++ pyStr n), .table sixHeader rows, .para ""]

/-- `build_docx` (`src/app.py` lines 103-162) as the sequence of blocks of
the produced document, or the first Python exception raised while building
it.  Statement order, defaults (`doc_data.get(key, default)`) and
subscriptions (`[key]`, raising) follow the source line by line. -/
def build_docx (doc_data : Json) (filename : String) :
    Except PyErr (List Block) := do
  let d ← pyGet doc_data "description" (.str "")
  let dS ← asStr d
  let g ← pyGet doc_data "tableGrain" (.str "")
  let gS ← asStr g
  let ds ← pyGet doc_data "dataSources" (.arr [])
  let dsItems ← pyIter ds
  let dbx ← pyGet doc_data "databricksTables" (.arr [])
  let dbxItems ← pyIter dbx
  let dbxBlocks ← exMap dbxBullet dbxItems
  let tmd ← pyGet doc_data "tableMetadata" (.arr [])
  let tmdItems ← pyIter tmd
  let tmdBlocks ← exMap tableSection tmdItems
  let ir ← pyGet doc_data "integratedRules" (.arr [])
  let irItems ← pyIter ir
  pure
    ([Block.title "Python Documentation Report",
      Block.para ("Generated for: " ++ filename),
      Block.heading 1 "1. Description", Block.para dS,
      Block.heading 1 "2. Table Grain", Block.para gS,
      Block.heading 1 "3. Data Sources"]
     ++ dsItems.map (fun s => Block.para (bulletStr ++ pyStr s))
     ++ [Block.heading 1 "4. Databricks Tables (Output)"]
     ++ dbxBlocks
     ++ [Block.heading 1 "5. Table Metadata"]
     ++ tmdBlocks.flatten
     ++ [Block.heading 1 "6. Integrated Rules"]
     ++ irItems.map (fun s => Block.para (bulletStr ++ pyStr s)))

/-! ### Typed documentation reports and their JSON encodings

`ColumnMeta`, `DbxTable`, `TableMeta` and `ReportOpt` describe the shape of
JSON inputs to `build_docx`: `ReportOpt` allows each top-level key, and the
`columns` key of a `tableMetadata` entry, to be absent (`none` = the key is
missing from the object), which is exactly the family of inputs the
missing-key tolerance claims quantify over.  `Report` is the fully-populated
schema of the prompt template. -/

/-- One fully-populated entry of a `columns` list. -/
structure ColumnMeta where
  columnName : String
  dataType : String
  description : String
  sampleValues : String
  sourceTable : String
  sourceColumn : String
deriving Repr, DecidableEq

/-- One entry of `databricksTables`. -/
structure DbxTable where
  tableName : String
  description : String
deriving Repr, DecidableEq

/-- One entry of `tableMetadata`; `columns = none` means the `columns` key
is absent from the object. -/
structure TableMeta where
  tableName : String
  columns : Option (List ColumnMeta)
deriving Repr, DecidableEq

/-- A schema-shaped report in which every top-level key may be absent
(`none` = missing from the JSON object). -/
structure ReportOpt where
  description : Option String
  tableGrain : Option String
  dataSources : Option (List String)
  databricksTables : Option (List DbxTable)
  tableMetadata : Option (List TableMeta)
  integratedRules : Option (List String)
deriving Repr

/-- One fully-populated entry of `tableMetadata`. -/
structure TableFull where
  tableName : String
  columns : List ColumnMeta
deriving Repr, DecidableEq

/-- Forgetting that `columns` is present. -/
def TableFull.toMeta (t : TableFull) : TableMeta := ⟨t.tableName, some t.columns⟩

/-- A fully-populated report exactly matching the documented JSON schema. -/
structure Report where
  description : String
  tableGrain : String
  dataSources : List String
  databricksTables : List DbxTable
  tableMetadata : List TableFull
  integratedRules : List String
deriving Repr

def ColumnMeta.toJson (c : ColumnMeta) : Json :=
  .obj [("columnName", .str c.columnName), ("dataType", .str c.dataType),
        ("description", .str c.description),
        ("sampleValues", .str c.sampleValues),
        ("sourceTable", .str c.sourceTable),
        ("sourceColumn", .str c.sourceColumn)]

def DbxTable.toJson (t : DbxTable) : Json :=
  .obj [("tableName", .str t.tableName), ("description", .str t.description)]

def TableMeta.toJson (t : TableMeta) : Json :=
  .obj (("tableName", Json.str t.tableName) ::
    (match t.columns with
     | none => []
     | some cs => [("columns", Json.arr (cs.map ColumnMeta.toJson))]))

/-- A key/value entry that is present only when the value is. -/
def optField (k : String) (v : Option Json) : List (String × Json) :=
  match v with
  | none => []
  | some j => [(k, j)]

def ReportOpt.toJson (r : ReportOpt) : Json :=
  .obj (optField "description" (r.description.map .str)
     ++ optField "tableGrain" (r.tableGrain.map .str)
     ++ optField "dataSources" ((r.dataSources.map (fun l => Json.arr (l.map .str))))
     ++ optField "databricksTables"
          ((r.databricksTables.map (fun l => Json.arr (l.map DbxTable.toJson))))
     ++ optField "tableMetadata"
          ((r.tableMetadata.map (fun l => Json.arr (l.map TableMeta.toJson))))
     ++ optField "integratedRules"
          ((r.integratedRules.map (fun l => Json.arr (l.map .str)))))

/-- A full report as an optionally-populated one (every key present). -/
def Report.toOpt (r : Report) : ReportOpt :=
  ⟨some r.description, some r.tableGrain, some r.dataSources,
   some r.databricksTables, some (r.tableMetadata.map TableFull.toMeta),
   some r.integratedRules⟩

def Report.toJson (r : Report) : Json :=
  ReportOpt.toJson r.toOpt

/-- The six cell texts of the row rendered for one column entry. -/
def rowOfCol (c : ColumnMeta) : List String :=
  [c.columnName, c.dataType, c.description, c.sampleValues,
   c.sourceTable, c.sourceColumn]

/-- The blocks rendered for one `tableMetadata` entry of a `ReportOpt`:
a level-2 heading, a table with the fixed six-column header and one body
row per column entry (none when `columns` is absent), and a spacer
paragraph. -/
def renderTable (t : TableMeta) : List Block :=
  [.heading 2 ("Table: " ++ t.tableName),
   .table sixHeader ((t.columns.getD []).map rowOfCol),
   .para ""]

/-- The document `build_docx` produces on the JSON encoding of a
`ReportOpt`: absent keys become empty text or empty lists, every present
list contributes exactly one bulleted paragraph (or one table section) per
entry, and the six labeled sections appear in fixed order. -/
def renderOpt (r : ReportOpt) (fn : String) : List Block :=
  [Block.title "Python Documentation Report",
   Block.para ("Generated for: " ++ fn),
   Block.heading 1 "1. Description", Block.para (r.description.getD ""),
   Block.heading 1 "2. Table Grain", Block.para (r.tableGrain.getD ""),
   Block.heading 1 "3. Data Sources"]
  ++ (r.dataSources.getD []).map (fun s => Block.para (bulletStr ++ s))
  ++ [Block.heading 1 "4. Databricks Tables (Output)"]
  ++ (r.databricksTables.getD []).map
       (fun t => Block.para (bulletStr ++ t.tableName ++ ": " ++ t.description))
  ++ [Block.heading 1 "5. Table Metadata"]
  ++ ((r.tableMetadata.getD []).map renderTable).flatten
  ++ [Block.heading 1 "6. Integrated Rules"]
  ++ (r.integratedRules.getD []).map (fun s => Block.para (bulletStr ++ s))

/-- The document rendered for a fully-populated report. -/
def renderFull (r : Report) (fn : String) : List Block :=
  renderOpt r.toOpt fn

/-- The texts of the level-`lvl` headings of a document, in order. -/
def headingTexts (lvl : Nat) (bs : List Block) : List String :=
  bs.filterMap fun b =>
    match b with
    | .heading l t => if l = lvl then some t else none
    | _ => none

/-- The header rows of the tables of a document, in order. -/
def tableHeaders (bs : List Block) : List (List String) :=
  bs.filterMap fun b =>
    match b with
    | .table hdr _ => some hdr
    | _ => none

/-- The body rows of the tables of a document, in order. -/
def tableBodies (bs : List Block) : List (List (List String)) :=
  bs.filterMap fun b =>
    match b with
    | .table _ rows => some rows
    | _ => none

/-! ### Prompt construction (`generate_documentation`, `src/app.py` 69-84)

`DOCUMENTATION_TEMPLATE` and `SYSTEM_ROLE` reproduce the source strings
byte for byte (the source file contains double-encoded punctuation such as
`‚Äì`; it is reproduced as-is). -/

def DOCUMENTATION_TEMPLATE : String := String.intercalate "\n"
  ["",
   "You are provided with a Python script. Your task is to return extremely detailed documentation in a SINGLE JSON object (no additional text). The JSON MUST follow the exact structure below and every field must be present.",
   "",
   "Note on \"tableGrain\": specify WHICH columns guarantee that the final output table will contain exactly ONE row per combination of those columns.",
   "",
   "JSON FORMAT (copy exactly ‚Äì populate all placeholders):",
   "\x7b",
   "  \"description\": \"string\",",
   "  \"tableGrain\": \"string\",",
   "  \"dataSources\": [\"string\"],",
   "  \"databricksTables\": [",
   "    \x7b \"tableName\": \"string\", \"description\": \"string\" \x7d",
   "  ],",
   "  \"tableMetadata\": [",
   "    \x7b",
   "      \"tableName\": \"string\",",
   "      \"columns\": [",
   "        \x7b",
   "          \"columnName\": \"string\",",
   "          \"dataType\": \"string\",",
   "          \"description\": \"string\",",
   "          \"sampleValues\": \"string\",",
   "          \"sourceTable\": \"string\",",
   "          \"sourceColumn\": \"string\"",
   "        \x7d",
   "      ]",
   "    \x7d",
   "  ],",
   "  \"integratedRules\": [\"string\"]",
   "\x7d",
   "",
   "- Populate \"dataSources\" with ALL input tables or files referenced in the script.",
   "- \"databricksTables\" lists every table the script creates or overwrites in Databricks along with a concise business-focused description.",
   "- \"tableMetadata\" must be an array, one object per output table listed in \"databricksTables\". Each object has tableName and columns list.",
   "- \"integratedRules\" should be a BULLETED LIST (array of strings) describing transformations/business logic in order.",
   "- For the \"sourceTable\" field: if the script uses a temp view/CTE, resolve to the original underlying table.",
   "- Do NOT omit any property. Use \"N/A\" if genuinely unknown.",
   "- The response MUST be valid JSON ‚Äì no markdown.",
   ""]

def SYSTEM_ROLE : String :=
  "You are a technical documentation expert specializing in data pipeline and analytics code documentation for a business audience. " ++
  "Your task is to help business users understand Python code related to sales representative activities with doctors and hospitals. " ++
  "You create comprehensive, structured documentation following the provided template, explaining technical steps in business terms."

/-- One role-tagged chat message. -/
structure ChatMessage where
  role : String
  content : String
deriving Repr, DecidableEq

/-- The single request issued per generation (line 79-84): the model
identifier, the message list, the response-format request and the
streaming toggle. -/
structure ChatRequest where
  model : String
  messages : List ChatMessage
  response_format : String
  stream : Bool
deriving Repr, DecidableEq

/-- The f-string content of the user message (line 75). -/
def userContent (python_code filename : String) : String :=
  DOCUMENTATION_TEMPLATE ++ "\n\nPython file: " ++ filename ++
  "\n\nPython Code:\n```python\n" ++ python_code ++
  "\n```\n\nPlease generate the documentation following the exact template format provided above."

/-- `generate_documentation` (lines 69-84): a pure construction of the
request record from the source text, the filename and the stream flag. -/
def generate_documentation (python_code filename : String) (stream : Bool) :
    ChatRequest :=
  ⟨"o3-2025-04-16",
   [⟨"system", SYSTEM_ROLE⟩, ⟨"user", userContent python_code filename⟩],
   "json_object",
   stream⟩

/-! ### The streaming and non-streaming response shapes
(`src/app.py` 202-228) -/

/-- `chunk.choices[0].delta` of a streaming chunk. -/
structure DeltaMsg where
  content : Option String
deriving Repr, DecidableEq

structure ChunkChoice where
  delta : DeltaMsg
deriving Repr, DecidableEq

/-- One streaming chunk. -/
structure Chunk where
  choices : List ChunkChoice
deriving Repr, DecidableEq

/-- `response.choices[0].message` of a blocking response. -/
structure ChatMsg where
  content : Option String
deriving Repr, DecidableEq

structure RespChoice where
  message : ChatMsg
deriving Repr, DecidableEq

/-- A complete blocking response. -/
structure Response where
  choices : List RespChoice
deriving Repr, DecidableEq

/-- Line 211: `delta = chunk.choices[0].delta.content if chunk.choices
else ""`. -/
def chunkDelta (c : Chunk) : Option String :=
  match c.choices with
  | [] => some ""
  | ch :: _ => ch.delta.content

/-- Lines 212-213: `if delta: doc_string += delta` — `None` and `""` are
falsy and skipped. -/
def accumStep (acc : String) (c : Chunk) : String :=
  match chunkDelta c with
  | none => acc
  | some d => if d = "" then acc else acc ++ d

/-- Lines 205-213: the accumulated `doc_string` after the streaming loop. -/
def accumulate (chunks : List Chunk) : String :=
  chunks.foldl accumStep ""

/-- The text a chunk carries (`None` and a missing choice carry none). -/
def fragText (c : Chunk) : String := (chunkDelta c).getD ""

/-- Concatenation of a list of text fragments in order. -/
def concatAll : List String → String
  | [] => ""
  | s :: rest => s ++ concatAll rest

/-! ### Session state, the generate handler, clear and display
(`src/app.py` 194-281)

`st.session_state.generated_docs` / `generated_filename` hold parsed JSON
values; Python `None` is `Json.null` (the value `json.loads` returns for the
text `null` is the very same `None`).  A session in which the two keys have
never been created is modelled as holding `Json.null`: the initialization
block (lines 196-198) writes `None` exactly when the keys are absent, and
every read in the program goes through `hasattr`/truthiness (line 247), which
cannot distinguish an absent key from a stored `None`. -/

structure SessionSt where
  generated_docs : Json
  generated_filename : Json
deriving Repr

/-- The session before any generation (and after the init block). -/
def initSession : SessionSt := ⟨.null, .null⟩

/-- The report and the filename are `None` together (claim C10's
invariant). -/
def nullTogether (s : SessionSt) : Prop :=
  s.generated_docs = Json.null ↔ s.generated_filename = Json.null

/-- Line 237. -/
def successText : String := "‚úÖ Documentation generated successfully!"

/-- Line 240 prefix. -/
def parseFailPrefix : String := "‚ùå Failed to parse JSON from model: "

/-- Line 244 prefix. -/
def genErrPrefix : String := "‚ùå Error generating documentation: "

/-- One user-visible effect of the generate handler. -/
inductive UiEvent where
  | successMsg : String → UiEvent
  | errorMsg : String → UiEvent
  | rawTextArea : (label : String) → (text : String) → UiEvent
deriving Repr, DecidableEq

/-- What the model call delivered to the handler: a transport/service
exception, a finite stream of chunks, or one blocking response. -/
inductive GenOutcome where
  | transportErr : String → GenOutcome
  | streamOk : List Chunk → GenOutcome
  | singleOk : Response → GenOutcome
deriving Repr

/-- Lines 230-242: `json.loads` on the reconstructed text, then either the
success path (store the parsed value and the filename, lines 233-237) or
the `json.JSONDecodeError` path (error messages plus the raw text shown
for diagnosis, lines 239-242; the session state is not touched). -/
def handleParsed (jloads : String → Except String Json) (st0 : SessionSt)
    (fn : String) (ds : String) : SessionSt × List UiEvent :=
  match jloads ds with
  | .ok j => (⟨j, .str fn⟩, [.successMsg successText])
  | .error e =>
    (st0, [.errorMsg (parseFailPrefix ++ e), .errorMsg "Raw response:",
           .rawTextArea "Raw model response" ds])

/-- The generate button handler (lines 200-244), parameterized by the
`json.loads` parse (`jloads`) and by what the remote call delivered.
`response.choices[0]` on an empty list raises `IndexError` and
`json.loads(None)` raises `TypeError`; both are caught by the generic
`except Exception` arm (line 243-244), like transport errors. -/
def generateClick (jloads : String → Except String Json) (st0 : SessionSt)
    (fn : String) : GenOutcome → SessionSt × List UiEvent
  | .transportErr m => (st0, [.errorMsg (genErrPrefix ++ m)])
  | .streamOk chunks => handleParsed jloads st0 fn (accumulate chunks)
  | .singleOk resp =>
    match resp.choices with
    | [] => (st0, [.errorMsg (genErrPrefix ++ "list index out of range")])
    | c :: _ =>
      match c.message.content with
      | none =>
        (st0, [.errorMsg (genErrPrefix ++
          "the JSON object must be str, bytes or bytearray, not NoneType")])
      | some ds => handleParsed jloads st0 fn ds

/-- The clear button handler (lines 272-275): both keys are reset to
`None`. -/
def clearClick (_s : SessionSt) : SessionSt := ⟨.null, .null⟩

/-- Python truthiness of a parsed JSON value. -/
def pyTruthy : Json → Bool
  | .null => false
  | .bool b => b
  | .num n => n != 0
  | .str s => !s.isEmpty
  | .arr xs => !xs.isEmpty
  | .obj kvs => !kvs.isEmpty

/-- What the bottom of the script renders (lines 246-281). -/
inductive Rendered where
  | reportView : (docs : Json) → (filename : Json) → Rendered
  | promptGenerate : Rendered
  | promptUpload : Rendered
deriving Repr

/-- Lines 246-281: the report view is shown iff `generated_docs` is truthy,
otherwise one of the two "no report" prompts. -/
def display (s : SessionSt) (fileUploaded : Bool) : Rendered :=
  if pyTruthy s.generated_docs then
    .reportView s.generated_docs s.generated_filename
  else if fileUploaded then .promptGenerate
  else .promptUpload

/-! ### Download filename (`src/app.py` line 264) -/

/-- `beginsWith pat l`: `l` starts with `pat`. -/
def beginsWith : List Char → List Char → Bool
  | [], _ => true
  | _ :: _, [] => false
  | p :: ps, c :: cs => p == c && beginsWith ps cs

/-- `containsSub pat l`: some position of `l` starts with `pat`. -/
def containsSub (pat : List Char) : List Char → Bool
  | [] => pat.isEmpty
  | c :: cs => beginsWith pat (c :: cs) || containsSub pat cs

/-- Python `str.replace` for a non-empty pattern: every non-overlapping
occurrence, scanned left to right, is replaced.  The `Nat` argument is
structural-recursion fuel; each step consumes at least one character, so
any fuel of at least the list's length computes the replacement. -/
def replaceGo (pat repl : List Char) : Nat → List Char → List Char
  | _, [] => []
  | 0, s => s
  | fuel + 1, c :: cs =>
    if beginsWith pat (c :: cs) && !pat.isEmpty then
      repl ++ replaceGo pat repl fuel (cs.drop (pat.length - 1))
    else
      c :: replaceGo pat repl fuel cs

/-- `s.replace(pat, repl)` on strings (non-empty `pat`). -/
def pyReplace (s pat repl : String) : String :=
  (replaceGo pat.toList repl.toList s.toList.length s.toList).asString

/-- Line 264: `st.session_state.generated_filename.replace(".py",
"_documentation.docx")`. -/
def download_name (filename : String) : String :=
  pyReplace filename ".py" "_documentation.docx"

/-! ### Helper lemmas for the rendering refinement -/

@[simp] theorem exBind_ok {α β : Type} (a : α) (f : α → Except PyErr β) :
    (Except.ok a >>= f) = f a := rfl

@[simp] theorem exBind_err {α β : Type} (e : PyErr) (f : α → Except PyErr β) :
    ((Except.error e : Except PyErr α) >>= f) = .error e := rfl

@[simp] theorem exFmap_ok {α β : Type} (a : α) (f : α → β) :
    (f <$> (Except.ok a : Except PyErr α)) = Except.ok (f a) := rfl

@[simp] theorem exFmap_err {α β : Type} (e : PyErr) (f : α → β) :
    (f <$> (Except.error e : Except PyErr α)) = Except.error e := rfl

@[simp] theorem pyStr_str (s : String) : pyStr (Json.str s) = s := rfl

theorem exMap_map {α β : Type} (f : Json → Except PyErr α) (enc : β → Json)
    (g : β → α) (h : ∀ b, f (enc b) = .ok (g b)) :
    ∀ l : List β, exMap f (l.map enc) = .ok (l.map g) := by
  intro l
  induction l with
  | nil => rfl
  | cons b bs ih =>
    simp only [List.map_cons, exMap, h b, ih]
    rfl

theorem dbxBullet_enc (t : DbxTable) :
    dbxBullet t.toJson =
      .ok (Block.para (bulletStr ++ t.tableName ++ ": " ++ t.description)) := by
  cases t
  rfl

theorem colRowOf_enc (c : ColumnMeta) :
    colRowOf c.toJson = .ok (rowOfCol c) := by
  cases c
  rfl

theorem tableSection_enc (t : TableMeta) :
    tableSection t.toJson = .ok (renderTable t) := by
  obtain ⟨n, cols⟩ := t
  cases cols with
  | none => rfl
  | some cs =>
    simp [tableSection, TableMeta.toJson, pyGetItem, pyGet, pyIter,
      List.lookup, renderTable,
      exMap_map colRowOf ColumnMeta.toJson rowOfCol colRowOf_enc cs]

@[simp] theorem map_bullet_str (l : List String) :
    List.map ((fun s => Block.para (bulletStr ++ pyStr s)) ∘ Json.str) l =
    List.map (fun s => Block.para (bulletStr ++ s)) l := by
  induction l with
  | nil => rfl
  | cons a l ih => simp [Function.comp, ih]

set_option maxHeartbeats 1600000 in
/-- `build_docx` on the JSON encoding of any optionally-populated report
succeeds and produces exactly `renderOpt`. -/
theorem build_docx_opt (r : ReportOpt) (fn : String) :
    build_docx r.toJson fn = .ok (renderOpt r fn) := by
  obtain ⟨d, g, ds, db, tm, ir⟩ := r
  cases d <;> cases g <;> cases ds <;> cases db <;> cases tm <;> cases ir <;>
    simp [build_docx, ReportOpt.toJson, optField, pyGet,
      pyGetItem, pyIter, asStr, List.lookup, renderOpt,
      exMap_map dbxBullet DbxTable.toJson
        (fun t => Block.para (bulletStr ++ t.tableName ++ ": " ++ t.description))
        dbxBullet_enc,
      exMap_map tableSection TableMeta.toJson renderTable tableSection_enc,
      exMap, List.map_map, Function.comp]

/-! ### Helper lemmas: full reports, accumulation, projections -/

theorem build_docx_full (r : Report) (fn : String) :
    build_docx r.toJson fn = .ok (renderFull r fn) :=
  build_docx_opt r.toOpt fn

theorem renderTable_toMeta (t : TableFull) :
    renderTable t.toMeta =
      [Block.heading 2 ("Table: " ++ t.tableName),
       Block.table sixHeader (t.columns.map rowOfCol),
       Block.para ""] := rfl

@[simp] theorem map_renderTable_toMeta (l : List TableFull) :
    l.map (fun t => renderTable t.toMeta) =
    l.map (fun t =>
      [Block.heading 2 ("Table: " ++ t.tableName),
       Block.table sixHeader (t.columns.map rowOfCol),
       Block.para ""]) := by
  induction l with
  | nil => rfl
  | cons a l ih => simp [renderTable_toMeta, ih]

theorem accumStep_eq (acc : String) (c : Chunk) :
    accumStep acc c = acc ++ fragText c := by
  unfold accumStep fragText
  cases chunkDelta c with
  | none => exact (String.append_empty acc).symm
  | some d =>
    by_cases h : d = ""
    · simp [h, String.append_empty]
    · simp [h]

theorem foldl_accumStep (l : List Chunk) :
    ∀ acc : String, l.foldl accumStep acc = acc ++ concatAll (l.map fragText) := by
  induction l with
  | nil => intro acc; simp [concatAll, String.append_empty]
  | cons c t ih =>
    intro acc
    simp only [List.foldl_cons, List.map_cons, concatAll, ih, accumStep_eq,
      String.append_assoc]

/-- The accumulated `doc_string` of the streaming loop is exactly the
concatenation, in arrival order, of the fragment texts. -/
theorem accumulate_concat (chunks : List Chunk) :
    accumulate chunks = concatAll (chunks.map fragText) := by
  have h := foldl_accumStep chunks ""
  simpa [accumulate, String.empty_append] using h

@[simp] theorem headingTexts_append (lvl : Nat) (a b : List Block) :
    headingTexts lvl (a ++ b) = headingTexts lvl a ++ headingTexts lvl b := by
  simp [headingTexts, List.filterMap_append]

@[simp] theorem tableHeaders_append (a b : List Block) :
    tableHeaders (a ++ b) = tableHeaders a ++ tableHeaders b := by
  simp [tableHeaders, List.filterMap_append]

@[simp] theorem tableBodies_append (a b : List Block) :
    tableBodies (a ++ b) = tableBodies a ++ tableBodies b := by
  simp [tableBodies, List.filterMap_append]

@[simp] theorem headingTexts_map_para (lvl : Nat) {α : Type} (f : α → String)
    (l : List α) :
    headingTexts lvl (l.map fun a => Block.para (f a)) = [] := by
  induction l with
  | nil => rfl
  | cons a t ih => simp [headingTexts, List.filterMap_cons, ih]

@[simp] theorem tableHeaders_map_para {α : Type} (f : α → String)
    (l : List α) :
    tableHeaders (l.map fun a => Block.para (f a)) = [] := by
  induction l with
  | nil => rfl
  | cons a t ih => simp [tableHeaders, List.filterMap_cons, ih]

@[simp] theorem tableBodies_map_para {α : Type} (f : α → String)
    (l : List α) :
    tableBodies (l.map fun a => Block.para (f a)) = [] := by
  induction l with
  | nil => rfl
  | cons a t ih => simp [tableBodies, List.filterMap_cons, ih]

theorem headingTexts_one_tables (l : List TableFull) :
    headingTexts 1 ((l.map fun t =>
      [Block.heading 2 ("Table: " ++ t.tableName),
       Block.table sixHeader (t.columns.map rowOfCol),
       Block.para ""]).flatten) = [] := by
  induction l with
  | nil => rfl
  | cons a t ih => simp [headingTexts, List.filterMap_cons, ih]

theorem headingTexts_two_tables (l : List TableFull) :
    headingTexts 2 ((l.map fun t =>
      [Block.heading 2 ("Table: " ++ t.tableName),
       Block.table sixHeader (t.columns.map rowOfCol),
       Block.para ""]).flatten) =
    l.map (fun t => "Table: " ++ t.tableName) := by
  induction l with
  | nil => rfl
  | cons a t ih => simpa [headingTexts, List.filterMap_cons] using ih

theorem tableHeaders_tables (l : List TableFull) :
    tableHeaders ((l.map fun t =>
      [Block.heading 2 ("Table: " ++ t.tableName),
       Block.table sixHeader (t.columns.map rowOfCol),
       Block.para ""]).flatten) =
    List.replicate l.length sixHeader := by
  induction l with
  | nil => rfl
  | cons a t ih => simpa [tableHeaders, List.filterMap_cons, List.replicate] using ih

theorem tableBodies_tables (l : List TableFull) :
    tableBodies ((l.map fun t =>
      [Block.heading 2 ("Table: " ++ t.tableName),
       Block.table sixHeader (t.columns.map rowOfCol),
       Block.para ""]).flatten) =
    l.map (fun t => t.columns.map rowOfCol) := by
  induction l with
  | nil => rfl
  | cons a t ih => simpa [tableBodies, List.filterMap_cons] using ih

/-! ### Helper lemmas for the download filename -/

theorem replaceGo_suffix (repl : List Char) :
    ∀ (stem : List Char) (fuel : Nat),
      containsSub ['.', 'p', 'y'] stem = false →
      (stem ++ ['.', 'p', 'y']).length ≤ fuel →
      replaceGo ['.', 'p', 'y'] repl fuel (stem ++ ['.', 'p', 'y']) =
        stem ++ repl := by
  intro stem
  induction stem with
  | nil =>
    intro fuel _ hf
    cases fuel with
    | zero => simp at hf
    | succ f => simp [replaceGo, beginsWith]
  | cons c st ih =>
    intro fuel h hf
    have hsplit : beginsWith ['.', 'p', 'y'] (c :: st) = false ∧
        containsSub ['.', 'p', 'y'] st = false := by
      simpa [containsSub, Bool.or_eq_false_iff] using h
    cases fuel with
    | zero => simp at hf
    | succ f =>
      have key : beginsWith ['.', 'p', 'y'] (c :: (st ++ ['.', 'p', 'y'])) = false := by
        cases st with
        | nil => simp [beginsWith]
        | cons d st2 =>
          cases st2 with
          | nil => simp [beginsWith]
          | cons e st3 => simpa [beginsWith] using hsplit.1
      have hlen : (st ++ ['.', 'p', 'y']).length ≤ f := by
        simp at hf
        simp
        omega
      simp [replaceGo, key, ih f hsplit.2 hlen]

theorem download_name_data (fn : String) :
    download_name fn =
      (replaceGo ['.', 'p', 'y'] "_documentation.docx".data
        fn.data.length fn.data).asString := rfl

@[simp] theorem headingTexts_nil (lvl : Nat) : headingTexts lvl [] = [] := rfl

@[simp] theorem headingTexts_cons_title (lvl : Nat) (s : String)
    (rest : List Block) :
    headingTexts lvl (Block.title s :: rest) = headingTexts lvl rest := by
  simp [headingTexts, List.filterMap_cons]

@[simp] theorem headingTexts_cons_para (lvl : Nat) (s : String)
    (rest : List Block) :
    headingTexts lvl (Block.para s :: rest) = headingTexts lvl rest := by
  simp [headingTexts, List.filterMap_cons]

@[simp] theorem headingTexts_cons_table (lvl : Nat) (hdr : List String)
    (rows : List (List String)) (rest : List Block) :
    headingTexts lvl (Block.table hdr rows :: rest) = headingTexts lvl rest := by
  simp [headingTexts, List.filterMap_cons]

@[simp] theorem headingTexts_cons_heading (lvl l : Nat) (t : String)
    (rest : List Block) :
    headingTexts lvl (Block.heading l t :: rest) =
      if l = lvl then t :: headingTexts lvl rest else headingTexts lvl rest := by
  by_cases h : l = lvl <;> simp [headingTexts, List.filterMap_cons, h]

@[simp] theorem tableHeaders_nil : tableHeaders [] = [] := rfl

@[simp] theorem tableHeaders_cons_title (s : String) (rest : List Block) :
    tableHeaders (Block.title s :: rest) = tableHeaders rest := by
  simp [tableHeaders, List.filterMap_cons]

@[simp] theorem tableHeaders_cons_para (s : String) (rest : List Block) :
    tableHeaders (Block.para s :: rest) = tableHeaders rest := by
  simp [tableHeaders, List.filterMap_cons]

@[simp] theorem tableHeaders_cons_heading (l : Nat) (t : String)
    (rest : List Block) :
    tableHeaders (Block.heading l t :: rest) = tableHeaders rest := by
  simp [tableHeaders, List.filterMap_cons]

@[simp] theorem tableHeaders_cons_table (hdr : List String)
    (rows : List (List String)) (rest : List Block) :
    tableHeaders (Block.table hdr rows :: rest) = hdr :: tableHeaders rest := by
  simp [tableHeaders, List.filterMap_cons]

@[simp] theorem tableBodies_nil : tableBodies [] = [] := rfl

@[simp] theorem tableBodies_cons_title (s : String) (rest : List Block) :
    tableBodies (Block.title s :: rest) = tableBodies rest := by
  simp [tableBodies, List.filterMap_cons]

@[simp] theorem tableBodies_cons_para (s : String) (rest : List Block) :
    tableBodies (Block.para s :: rest) = tableBodies rest := by
  simp [tableBodies, List.filterMap_cons]

@[simp] theorem tableBodies_cons_heading (l : Nat) (t : String)
    (rest : List Block) :
    tableBodies (Block.heading l t :: rest) = tableBodies rest := by
  simp [tableBodies, List.filterMap_cons]

@[simp] theorem tableBodies_cons_table (hdr : List String)
    (rows : List (List String)) (rest : List Block) :
    tableBodies (Block.table hdr rows :: rest) = rows :: tableBodies rest := by
  simp [tableBodies, List.filterMap_cons]

theorem map_renderTable_enc (l : List TableFull) :
    (l.map TableFull.toMeta).map renderTable =
    l.map (fun t =>
      [Block.heading 2 ("Table: " ++ t.tableName),
       Block.table sixHeader (t.columns.map rowOfCol),
       Block.para ""]) := by
  induction l with
  | nil => rfl
  | cons a t ih => simp [renderTable_toMeta, ih]

/-- The document rendered for a full report, spelled out. -/
theorem renderFull_explicit (r : Report) (fn : String) :
    renderFull r fn =
      [Block.title "Python Documentation Report",
       Block.para ("Generated for: " ++ fn),
       Block.heading 1 "1. Description", Block.para r.description,
       Block.heading 1 "2. Table Grain", Block.para r.tableGrain,
       Block.heading 1 "3. Data Sources"]
      ++ r.dataSources.map (fun s => Block.para (bulletStr ++ s))
      ++ [Block.heading 1 "4. Databricks Tables (Output)"]
      ++ r.databricksTables.map
           (fun t => Block.para (bulletStr ++ t.tableName ++ ": " ++ t.description))
      ++ [Block.heading 1 "5. Table Metadata"]
      ++ (r.tableMetadata.map (fun t =>
           [Block.heading 2 ("Table: " ++ t.tableName),
            Block.table sixHeader (t.columns.map rowOfCol),
            Block.para ""])).flatten
      ++ [Block.heading 1 "6. Integrated Rules"]
      ++ r.integratedRules.map (fun s => Block.para (bulletStr ++ s)) := by
  simp only [renderFull, renderOpt, Report.toOpt, Option.getD_some,
    map_renderTable_enc]

/-! ### Claim theorems -/

/-- C1 (counterexample): it is not true that "no missing key anywhere in
the input causes an error": a `databricksTables` entry lacking `tableName`
makes `build_docx` raise a `KeyError` (the subscription `t['tableName']`
on `src/app.py` line 130), so rendering does raise on this parsed JSON
object. -/
theorem C1_counterexample :
    build_docx (Json.obj [("databricksTables", Json.arr [Json.obj []])])
      "script.py" = .error (.keyError "tableName") := rfl

/-- C1 (amended): missing top-level keys are tolerated with empty defaults,
and a `tableMetadata` entry lacking `columns` renders as a header-only
table; but a key missing inside a `databricksTables` entry, a
`tableMetadata` entry lacking `tableName`, or a column object lacking one
of its six keys raises a `KeyError`. -/
theorem C1_missing_key_tolerance :
    (∀ (r : ReportOpt) (fn : String),
      build_docx r.toJson fn = .ok (renderOpt r fn)) ∧
    (∀ (nm fn : String),
      build_docx (Json.obj [("tableMetadata",
          Json.arr [Json.obj [("tableName", Json.str nm)]])]) fn =
        .ok [Block.title "Python Documentation Report",
             Block.para ("Generated for: " ++ fn),
             Block.heading 1 "1. Description", Block.para "",
             Block.heading 1 "2. Table Grain", Block.para "",
             Block.heading 1 "3. Data Sources",
             Block.heading 1 "4. Databricks Tables (Output)",
             Block.heading 1 "5. Table Metadata",
             Block.heading 2 ("Table: " ++ nm),
             Block.table sixHeader [],
             Block.para "",
             Block.heading 1 "6. Integrated Rules"]) ∧
    (∀ (nm fn : String),
      build_docx (Json.obj [("databricksTables",
          Json.arr [Json.obj [("tableName", Json.str nm)]])]) fn =
        .error (.keyError "description")) ∧
    (∀ fn : String,
      build_docx (Json.obj [("tableMetadata", Json.arr [Json.obj []])]) fn =
        .error (.keyError "tableName")) ∧
    (∀ (nm fn : String),
      build_docx (Json.obj [("tableMetadata",
          Json.arr [Json.obj [("tableName", Json.str nm),
            ("columns", Json.arr [Json.obj []])]])]) fn =
        .error (.keyError "columnName")) := by
  refine ⟨build_docx_opt, ?_, fun nm fn => rfl, fun fn => rfl, fun nm fn => rfl⟩
  intro nm fn
  have h := build_docx_opt ⟨none, none, none, none, some [⟨nm, none⟩], none⟩ fn
  simpa [ReportOpt.toJson, optField, renderOpt, renderTable, TableMeta.toJson]
    using h

/-- C2 (counterexample): the download name is not obtained by replacing
only the `.py` suffix: Python `str.replace` replaces every occurrence, so
the legal upload name `a.py.py` yields
`a_documentation.docx_documentation.docx`, not `a.py_documentation.docx`. -/
theorem C2_counterexample :
    download_name "a.py.py" = "a_documentation.docx_documentation.docx" ∧
    download_name "a.py.py" ≠ "a.py_documentation.docx" := ⟨rfl, by decide⟩

/-- C2 (amended): the artifact name replaces every occurrence of `.py` in
the uploaded filename with `_documentation.docx`; in particular, whenever
`.py` occurs only as the suffix (as in `foo.py`), the result is the stem
followed by `_documentation.docx`. -/
theorem C2_suffix_only (stem : String)
    (h : containsSub ['.', 'p', 'y'] stem.data = false) :
    download_name (stem ++ ".py") = stem ++ "_documentation.docx" := by
  apply String.ext
  rw [download_name_data]
  have hdata : (stem ++ ".py").data = stem.data ++ ['.', 'p', 'y'] :=
    String.data_append stem ".py"
  rw [String.data_append]
  show replaceGo ['.', 'p', 'y'] "_documentation.docx".data
      (stem ++ ".py").data.length (stem ++ ".py").data =
    stem.data ++ "_documentation.docx".data
  rw [hdata]
  exact replaceGo_suffix _ stem.data _ h (Nat.le_refl _)

/-- Witness for C2 (amended) at the spec's own example `foo.py`. -/
theorem C2_suffix_only_witness :
    containsSub ['.', 'p', 'y'] "foo".data = false ∧
    download_name ("foo" ++ ".py") = "foo" ++ "_documentation.docx" :=
  ⟨by decide, C2_suffix_only "foo" (by decide)⟩

/-- C3: the streaming path (concatenating the deltas in arrival order,
skipping empty and absent ones, then parsing) produces exactly the outcome
of the blocking path on the full text, whenever the fragments concatenate
to that full text: both paths feed the same reconstructed string to the
same parse and then run the same success/failure code. -/
theorem C3_stream_equals_blocking (jloads : String → Except String Json)
    (st0 : SessionSt) (fn : String) (chunks : List Chunk) (full : String)
    (h : concatAll (chunks.map fragText) = full) :
    generateClick jloads st0 fn (.streamOk chunks) =
      generateClick jloads st0 fn (.singleOk ⟨[⟨⟨some full⟩⟩]⟩) := by
  simp [generateClick, accumulate_concat, h]

/-- Witness for C3: fragments `"ab"`, an empty chunk, a `None` delta and
`"c"` against the blocking text `"abc"`. -/
theorem C3_stream_equals_blocking_witness :
    generateClick (fun s => .ok (Json.str s)) initSession "foo.py"
      (.streamOk [⟨[⟨⟨some "ab"⟩⟩]⟩, ⟨[]⟩, ⟨[⟨⟨none⟩⟩]⟩, ⟨[⟨⟨some "c"⟩⟩]⟩]) =
    generateClick (fun s => .ok (Json.str s)) initSession "foo.py"
      (.singleOk ⟨[⟨⟨some "abc"⟩⟩]⟩) :=
  C3_stream_equals_blocking (fun s => .ok (Json.str s)) initSession "foo.py"
    [⟨[⟨⟨some "ab"⟩⟩]⟩, ⟨[]⟩, ⟨[⟨⟨none⟩⟩]⟩, ⟨[⟨⟨some "c"⟩⟩]⟩] "abc" (by decide)

set_option maxHeartbeats 800000 in
/-- C4: on any fully-populated schema-conforming report, `build_docx`
succeeds and the artifact consists of the fixed headings plus exactly one
bulleted paragraph per entry of `dataSources`, one per entry of
`databricksTables`, one per entry of `integratedRules`, and, per
`tableMetadata` entry, one sub-heading and one table whose body has exactly
one row per element of that entry's `columns` list. -/
theorem C4_render_counts (r : Report) (fn : String) :
    build_docx r.toJson fn = .ok
      ([Block.title "Python Documentation Report",
        Block.para ("Generated for: " ++ fn),
        Block.heading 1 "1. Description", Block.para r.description,
        Block.heading 1 "2. Table Grain", Block.para r.tableGrain,
        Block.heading 1 "3. Data Sources"]
       ++ r.dataSources.map (fun s => Block.para (bulletStr ++ s))
       ++ [Block.heading 1 "4. Databricks Tables (Output)"]
       ++ r.databricksTables.map
            (fun t => Block.para (bulletStr ++ t.tableName ++ ": " ++ t.description))
       ++ [Block.heading 1 "5. Table Metadata"]
       ++ (r.tableMetadata.map (fun t =>
            [Block.heading 2 ("Table: " ++ t.tableName),
             Block.table sixHeader (t.columns.map rowOfCol),
             Block.para ""])).flatten
       ++ [Block.heading 1 "6. Integrated Rules"]
       ++ r.integratedRules.map (fun s => Block.para (bulletStr ++ s))) ∧
    tableBodies (renderFull r fn) =
      r.tableMetadata.map (fun t => t.columns.map rowOfCol) := by
  constructor
  · rw [← renderFull_explicit r fn]
    exact build_docx_full r fn
  · rw [renderFull_explicit r fn]
    simp [tableBodies_tables]

set_option maxHeartbeats 800000 in
/-- C7: on any fully-populated report the artifact has exactly the six
labeled level-1 sections in fixed order, one labeled `Table: <name>`
sub-section per `tableMetadata` entry, and every table carries the fixed
six-column header. -/
theorem C7_six_sections (r : Report) (fn : String) :
    build_docx r.toJson fn = .ok (renderFull r fn) ∧
    headingTexts 1 (renderFull r fn) =
      ["1. Description", "2. Table Grain", "3. Data Sources",
       "4. Databricks Tables (Output)", "5. Table Metadata",
       "6. Integrated Rules"] ∧
    headingTexts 2 (renderFull r fn) =
      r.tableMetadata.map (fun t => "Table: " ++ t.tableName) ∧
    tableHeaders (renderFull r fn) =
      List.replicate r.tableMetadata.length sixHeader := by
  refine ⟨build_docx_full r fn, ?_, ?_, ?_⟩ <;>
    rw [renderFull_explicit r fn] <;>
    simp [headingTexts_one_tables, headingTexts_two_tables, tableHeaders_tables]

/-- C5 (counterexample): starting a new generation does not empty a
populated session.  Here a populated session starts a generation that fails
in transport; afterwards the old report is still stored (and still truthy,
hence still displayed), refuting the claimed `populated → empty` transition
on starting a new generation. -/
theorem C5_counterexample :
    (generateClick (fun s => Except.error s)
        ⟨Json.obj [("description", Json.str "d")], Json.str "a.py"⟩ "b.py"
        (.transportErr "connection error")).1 =
      ⟨Json.obj [("description", Json.str "d")], Json.str "a.py"⟩ ∧
    pyTruthy ((generateClick (fun s => Except.error s)
        ⟨Json.obj [("description", Json.str "d")], Json.str "a.py"⟩ "b.py"
        (.transportErr "connection error")).1).generated_docs = true :=
  ⟨rfl, rfl⟩

/-- C5 (amended): the session becomes populated exactly on a successful
parse (the new result wholly replacing the old one, independent of the
previous state), becomes empty only on the explicit clear action, is left
unchanged by failed generations, and after clearing both fields are `None`
and the render shows the appropriate "no report" prompt. -/
theorem C5_session_transitions (jloads : String → Except String Json)
    (st0 : SessionSt) (fn : String) :
    (∀ ds j, jloads ds = .ok j →
      (generateClick jloads st0 fn (.singleOk ⟨[⟨⟨some ds⟩⟩]⟩)).1 =
        ⟨j, .str fn⟩) ∧
    (∀ (chunks : List Chunk) j, jloads (accumulate chunks) = .ok j →
      (generateClick jloads st0 fn (.streamOk chunks)).1 = ⟨j, .str fn⟩) ∧
    (∀ m, (generateClick jloads st0 fn (.transportErr m)).1 = st0) ∧
    (∀ ds e, jloads ds = .error e →
      (generateClick jloads st0 fn (.singleOk ⟨[⟨⟨some ds⟩⟩]⟩)).1 = st0) ∧
    clearClick st0 = initSession ∧
    display (clearClick st0) true = Rendered.promptGenerate ∧
    display (clearClick st0) false = Rendered.promptUpload := by
  refine ⟨?_, ?_, fun m => rfl, ?_, rfl, rfl, rfl⟩
  · intro ds j h
    simp [generateClick, handleParsed, h]
  · intro chunks j h
    simp [generateClick, handleParsed, h]
  · intro ds e h
    simp [generateClick, handleParsed, h]

/-- Witness for C5 (amended): a successful parse stores the new value and
the new filename. -/
theorem C5_session_transitions_witness :
    (generateClick (fun _ => .ok (Json.bool true)) initSession "a.py"
      (.singleOk ⟨[⟨⟨some "true"⟩⟩]⟩)).1 = ⟨Json.bool true, Json.str "a.py"⟩ :=
  (C5_session_transitions (fun _ => .ok (Json.bool true)) initSession
    "a.py").1 "true" (Json.bool true) rfl

/-- C6: a response text that is not valid JSON takes the dedicated
`json.JSONDecodeError` arm, not the generic transport arm: the parse
failure is reported, the raw response text is preserved and displayed in a
text area, the session state is untouched (so no silent empty report), and
the emitted events differ from those of the transport-failure path. -/
theorem C6_parse_failure_path (jloads : String → Except String Json)
    (st0 : SessionSt) (fn ds e : String) (h : jloads ds = .error e) :
    generateClick jloads st0 fn (.singleOk ⟨[⟨⟨some ds⟩⟩]⟩) =
      (st0, [.errorMsg (parseFailPrefix ++ e), .errorMsg "Raw response:",
             .rawTextArea "Raw model response" ds]) ∧
    (∀ chunks : List Chunk, concatAll (chunks.map fragText) = ds →
      generateClick jloads st0 fn (.streamOk chunks) =
        (st0, [.errorMsg (parseFailPrefix ++ e), .errorMsg "Raw response:",
               .rawTextArea "Raw model response" ds])) ∧
    (∀ m : String,
      [UiEvent.errorMsg (parseFailPrefix ++ e), UiEvent.errorMsg "Raw response:",
       UiEvent.rawTextArea "Raw model response" ds] ≠
        [UiEvent.errorMsg (genErrPrefix ++ m)]) := by
  refine ⟨?_, ?_, ?_⟩
  · simp [generateClick, handleParsed, h]
  · intro chunks hc
    simp [generateClick, handleParsed, accumulate_concat, hc, h]
  · intro m hEq
    simpa using congrArg List.length hEq

/-- Witness for C6 at a concrete malformed text. -/
theorem C6_parse_failure_path_witness :
    generateClick (fun _ => .error "Expecting value")
        initSession "foo.py" (.singleOk ⟨[⟨⟨some "not json"⟩⟩]⟩) =
      (initSession,
       [.errorMsg (parseFailPrefix ++ "Expecting value"),
        .errorMsg "Raw response:",
        .rawTextArea "Raw model response" "not json"]) :=
  (C6_parse_failure_path (fun _ => .error "Expecting value") initSession
    "foo.py" "not json" "Expecting value" rfl).1

/-- C8: `generate_documentation` builds exactly the ordered pair of a fixed
system-role message and a user-role message concatenating the verbatim
template, the filename and the verbatim source text, and issues one request
with the fixed model identifier `o3-2025-04-16` requesting JSON-object
output with the given stream flag; as a Lean function it is deterministic
and effect-free by construction. -/
theorem C8_prompt_construction (python_code filename : String) (stream : Bool) :
    (generate_documentation python_code filename stream).messages =
      [⟨"system", SYSTEM_ROLE⟩,
       ⟨"user", DOCUMENTATION_TEMPLATE ++ "\n\nPython file: " ++ filename ++
          "\n\nPython Code:\n```python\n" ++ python_code ++
          "\n```\n\nPlease generate the documentation following the exact template format provided above."⟩] ∧
    (generate_documentation python_code filename stream).model =
      "o3-2025-04-16" ∧
    (generate_documentation python_code filename stream).response_format =
      "json_object" ∧
    (generate_documentation python_code filename stream).stream = stream :=
  ⟨rfl, rfl, rfl, rfl⟩

/-- C9: every failing generation (transport error, parse error on either
path, an empty `choices` list, or a `None` message content) leaves the
session state exactly as it was, so an earlier successful report remains
stored and, the state being unchanged, continues to be displayed. -/
theorem C9_failure_preserves_state (jloads : String → Except String Json)
    (st0 : SessionSt) (fn : String) :
    (∀ m, (generateClick jloads st0 fn (.transportErr m)).1 = st0) ∧
    (∀ ds e, jloads ds = .error e →
      (generateClick jloads st0 fn (.singleOk ⟨[⟨⟨some ds⟩⟩]⟩)).1 = st0) ∧
    (∀ (chunks : List Chunk) e, jloads (accumulate chunks) = .error e →
      (generateClick jloads st0 fn (.streamOk chunks)).1 = st0) ∧
    ((generateClick jloads st0 fn (.singleOk ⟨[]⟩)).1 = st0) ∧
    ((generateClick jloads st0 fn (.singleOk ⟨[⟨⟨none⟩⟩]⟩)).1 = st0) ∧
    (∀ m u, display (generateClick jloads st0 fn (.transportErr m)).1 u =
      display st0 u) ∧
    (∀ ds e u, jloads ds = .error e →
      display (generateClick jloads st0 fn (.singleOk ⟨[⟨⟨some ds⟩⟩]⟩)).1 u =
        display st0 u) := by
  refine ⟨fun m => rfl, ?_, ?_, rfl, rfl, fun m u => rfl, ?_⟩
  · intro ds e h
    simp [generateClick, handleParsed, h]
  · intro chunks e h
    simp [generateClick, handleParsed, h]
  · intro ds e u h
    simp [generateClick, handleParsed, h]

/-- Witness for C9: a parse failure on a populated session leaves it
untouched. -/
theorem C9_failure_preserves_state_witness :
    (generateClick (fun _ => .error "bad")
        ⟨Json.obj [("description", Json.str "d")], Json.str "a.py"⟩ "b.py"
        (.singleOk ⟨[⟨⟨some "oops"⟩⟩]⟩)).1 =
      ⟨Json.obj [("description", Json.str "d")], Json.str "a.py"⟩ :=
  (C9_failure_preserves_state (fun _ => .error "bad")
    ⟨Json.obj [("description", Json.str "d")], Json.str "a.py"⟩
    "b.py").2.1 "oops" "bad" rfl

/-- C10 (counterexample): the claimed iff fails after a successful
generation whose parsed document is JSON `null`: `json.loads "null"`
returns Python `None`, so `generated_docs` is `None` while
`generated_filename` holds the upload name. -/
theorem C10_counterexample :
    (generateClick (fun _ => Except.ok Json.null) initSession "foo.py"
        (.singleOk ⟨[⟨⟨some "null"⟩⟩]⟩)).1 =
      ⟨Json.null, Json.str "foo.py"⟩ ∧
    ¬ nullTogether (generateClick (fun _ => Except.ok Json.null) initSession
        "foo.py" (.singleOk ⟨[⟨⟨some "null"⟩⟩]⟩)).1 := by
  refine ⟨rfl, ?_⟩
  intro hinv
  have h2 : Json.str "foo.py" = Json.null := hinv.mp rfl
  exact Json.noConfusion h2

/-- C10 (amended): the two fields are always written together, so the
"`None` together" invariant holds after initialization and clear, is
preserved by every failing generation, and holds after every successful
generation whose parsed document is not JSON `null` (the filename is then
the upload name and the document a non-null value). -/
theorem C10_null_together (jloads : String → Except String Json)
    (st0 : SessionSt) (fn : String) :
    nullTogether initSession ∧
    nullTogether (clearClick st0) ∧
    (∀ ds j, jloads ds = .ok j → j ≠ Json.null →
      nullTogether (generateClick jloads st0 fn
        (.singleOk ⟨[⟨⟨some ds⟩⟩]⟩)).1) ∧
    (∀ (chunks : List Chunk) j, jloads (accumulate chunks) = .ok j →
      j ≠ Json.null →
      nullTogether (generateClick jloads st0 fn (.streamOk chunks)).1) ∧
    (∀ m, nullTogether st0 →
      nullTogether (generateClick jloads st0 fn (.transportErr m)).1) ∧
    (∀ ds e, jloads ds = .error e → nullTogether st0 →
      nullTogether (generateClick jloads st0 fn
        (.singleOk ⟨[⟨⟨some ds⟩⟩]⟩)).1) := by
  refine ⟨Iff.rfl, Iff.rfl, ?_, ?_, fun m h => h, ?_⟩
  · intro ds j h hj
    simp [generateClick, handleParsed, h, nullTogether]
    intro hh
    exact absurd hh hj
  · intro chunks j h hj
    simp [generateClick, handleParsed, h, nullTogether]
    intro hh
    exact absurd hh hj
  · intro ds e h hinv
    simpa [generateClick, handleParsed, h] using hinv

/-- Witness for C10 (amended): a successful generation of the empty object
keeps the two fields non-`None` together. -/
theorem C10_null_together_witness :
    nullTogether (generateClick (fun _ => .ok (Json.obj [])) initSession
      "a.py" (.singleOk ⟨[⟨⟨some "\x7b\x7d"⟩⟩]⟩)).1 :=
  (C10_null_together (fun _ => .ok (Json.obj [])) initSession
    "a.py").2.2.1 "\x7b\x7d" (Json.obj []) rfl (by simp)
